import Mathlib

/-!
Shallow embedding of the ShadowVault repository (two source files:
the `ShadowVault` React component and `src/utils/wallet.ts`).

The component keeps four pieces of `useState` state (`smartClient`,
`status`, `loading`, `error`).  The two event handlers `createVault`
and `enableRecovery` are embedded as pure functions from an explicit
environment (the outcomes of the external SDK calls: `viem` /
`permissionless` are third-party libraries, not part of this
repository) and a pre-state to the list of intermediate states
produced by the successive `setXxx` mutations, in source order.
ABI-encoding calls into `viem` are embedded as constructors of an
inductive `HexData` recording exactly the arguments the component
passes to the library.
-/

namespace ShadowVault

/-- Addresses and hashes are `0x…` strings in the source. -/
abbrev Address := String

/-- A thrown JavaScript error, as observed by the component: only its
`message` field is used (`err.message`).  An empty string models a
falsy `message`. -/
structure JsError where
  message : String
deriving Repr, DecidableEq

/-- Embeds `err.message || 'An unknown error occurred.'` — the fallback is used
when `message` is falsy. -/
def errMsg (e : JsError) : String :=
  if e.message = "" then "An unknown error occurred." else e.message

/-- The `PrivateKeyAccount` from viem: the component and the wallet stub only
use its derived `address`. -/
structure PrivateKeyAccount where
  address : Address
deriving Repr, DecidableEq

/-- The Safe smart account returned by `toSafeSmartAccount`; the component
reads its `address` through the client. -/
structure SafeAccount where
  address : Address
deriving Repr, DecidableEq

/-- The smart-account client returned by `createSmartAccountClient`:
an opaque handle exposing `account.address` and a batched-send
operation (the latter lives in the environment). -/
structure SmartClient where
  account : SafeAccount
deriving Repr, DecidableEq

/-- Modelled from the spec: the `constants` module (not under `src/`)
supplies `PIMLICO_API_KEY` (an API key string from the environment,
empty = missing/falsy), and the recovery-module contract address
`RECOVERY_MODULE_ADDR`.  `CHAIN` and `ENTRYPOINT_V07` only feed the
external SDK calls and do not affect any claim. -/
structure Config where
  PIMLICO_API_KEY : String
  RECOVERY_MODULE_ADDR : Address
deriving Repr, DecidableEq

/-- The component's `useState` state. -/
structure VaultState where
  smartClient : Option SmartClient
  status : String
  loading : Bool
  error : Option String
deriving Repr, DecidableEq

/-- The initial state: `useState(null)`, `useState('Idle')`,
`useState(false)`, `useState(null)`. -/
def initialState : VaultState :=
  { smartClient := none, status := "Idle", loading := false, error := none }

/-- Hex calldata handed to the client, embedded symbolically: each
constructor records exactly what the component passes to the
corresponding `viem` encoder. -/
inductive HexData where
  /-- Records `encodeAbiParameters(parseAbiParameters('address[] guardians,
  uint256 threshold, uint256 delay'), [guardians, threshold, delay])`. -/
  | abiTuple (guardians : List Address) (threshold delay : Nat)
  /-- Records `encodeFunctionData` for `enableModule(address module)`. -/
  | fnEnableModule (moduleAddr : Address)
  /-- Records `encodeFunctionData` for `setup(bytes calldata data)`. -/
  | fnSetup (inner : HexData)
deriving Repr, DecidableEq

/-- The threshold word recorded in an `encodeAbiParameters` payload. -/
def HexData.encThreshold : HexData → Option Nat
  | .abiTuple _ t _ => some t
  | _ => none

/-- The delay word recorded in an `encodeAbiParameters` payload. -/
def HexData.encDelay : HexData → Option Nat
  | .abiTuple _ _ d => some d
  | _ => none

/-- One element of the array passed to `smartClient.sendTransactions`
(`toAddr` embeds the source field `to`, a Lean keyword). -/
structure Tx where
  toAddr : Address
  data : HexData
deriving Repr, DecidableEq

/-- Outcomes of the three awaited calls inside `createVault`'s `try`
block: `getBiometricOwner()`, `toSafeSmartAccount({...})`,
`createSmartAccountClient({...})`.  Each may resolve or throw. -/
structure CreateEnv where
  owner : Except JsError PrivateKeyAccount
  account : PrivateKeyAccount → Except JsError SafeAccount
  client : SafeAccount → Except JsError SmartClient

/-- The sequenced `try` body of `createVault` up to the client value:
the first throw aborts the rest. -/
def runCreate (env : CreateEnv) : Except JsError SmartClient :=
  match env.owner with
  | .error e => .error e
  | .ok o =>
    match env.account o with
    | .error e => .error e
    | .ok a => env.client a

/-- Embeds the template literal with `address.slice(0, 6)`, `...`, and `address.slice(-4)`. -/
def shortAddr (a : Address) : String :=
  a.take 6 ++ "..." ++ a.takeRight 4

/-- Handler `createVault`: the list of states after each successive state
mutation (`setLoading`, `setError`, `setStatus`, …, and the `finally`),
in source order.  The last element is the state the component is left
in. -/
def createVault (env : CreateEnv) (s : VaultState) : List VaultState :=
  let s1 := { s with loading := true }
  let s2 := { s1 with error := none }
  let s3 := { s2 with status := "Initializing Biometric Vault..." }
  match runCreate env with
  | .ok client =>
    let s4 := { s3 with smartClient := some client }
    let s5 := { s4 with status := "Vault Active: " ++ shortAddr client.account.address }
    let s6 := { s5 with loading := false }
    [s1, s2, s3, s4, s5, s6]
  | .error err =>
    let s4 := { s3 with status := "Initialization Failed" }
    let s5 := { s4 with error := some (errMsg err) }
    let s6 := { s5 with loading := false }
    [s1, s2, s3, s4, s5, s6]

/-- Outcome of `smartClient.sendTransactions(batch)`: resolves to a
transaction hash or throws, as a function of the submitted batch. -/
structure RecoveryEnv where
  sendTransactions : List Tx → Except JsError String

/-- The `setupData` built by `enableRecovery`:
`encodeAbiParameters(parseAbiParameters('address[] guardians, uint256
threshold, uint256 delay'), [guardians, 3n, 48n * 3600n])`. -/
def recoverySetupData (guardians : List Address) : HexData :=
  .abiTuple guardians 3 (48 * 3600)

/-- The two-element array handed to `smartClient.sendTransactions`. -/
def recoveryBatch (cfg : Config) (client : SmartClient) (guardians : List Address) : List Tx :=
  [ { toAddr := client.account.address
    , data := .fnEnableModule cfg.RECOVERY_MODULE_ADDR }
  , { toAddr := cfg.RECOVERY_MODULE_ADDR
    , data := .fnSetup (recoverySetupData guardians) } ]

/-- Handler `enableRecovery`: returns the list of states after each successive
state mutation, together with the list of batches submitted through the
client (one per `sendTransactions` call).  A `null` client returns
before doing anything (`if (!smartClient) return;`). -/
def enableRecovery (cfg : Config) (env : RecoveryEnv) (s : VaultState)
    (guardians : List Address) : List VaultState × List (List Tx) :=
  match s.smartClient with
  | none => ([], [])
  | some client =>
    let s1 := { s with loading := true }
    let s2 := { s1 with error := none }
    let s3 := { s2 with status := "Configuring 3-of-5 Guardian Protocol..." }
    let batch := recoveryBatch cfg client guardians
    match env.sendTransactions batch with
    | .ok txHash =>
      let s4 := { s3 with status := "Recovery Protocol Live: " ++ txHash.take 10 ++ "..." }
      let s5 := { s4 with loading := false }
      ([s1, s2, s3, s4, s5], [batch])
    | .error err =>
      let s4 := { s3 with status := "Recovery Setup Failed" }
      let s5 := { s4 with error := some (errMsg err) }
      let s6 := { s5 with loading := false }
      ([s1, s2, s3, s4, s5, s6], [batch])

/-- The state the component is left in after a handler ran: the last
mutated state, or the pre-state if the handler mutated nothing. -/
def finalState (s : VaultState) (trace : List VaultState) : VaultState :=
  trace.getLast? |>.getD s

/-- The hard-coded guardian list in `GuardianButton`'s `onClick`. -/
def sampleGuardians : List Address :=
  [ "0xdeadbeefdeadbeefdeadbeefdeadbeefdeadbeef"
  , "0x1234567890123456789012345678901234567890"
  , "0xfedcba9876543210fedcba9876543210fedcba98"
  , "0xabcdef1234567890abcdef1234567890abcdef"
  , "0x0987654321fedcba0987654321fedcba098765" ]

/-- A well-formed account address: `0x` followed by exactly 40 hex
digits (42 characters in total). -/
def isHexDigitChar (c : Char) : Bool :=
  c.isDigit || (Char.ofNat 97 ≤ c && c ≤ Char.ofNat 102)
    || (Char.ofNat 65 ≤ c && c ≤ Char.ofNat 70)

def isWellFormedAddress (a : Address) : Bool :=
  a.length == 42 &&
    (match a.data with
     | '0' :: 'x' :: rest => rest.all isHexDigitChar
     | _ => false)

/-- What the component renders, reduced to the observable facts the
claims are about.  `configError` is the early-return branch behind
`if (!PIMLICO_API_KEY)`; it contains no buttons and no status/error
paragraph. -/
structure MainView where
  /-- Holds `some disabled` iff the CREATE SECURE VAULT button is rendered. -/
  createButton : Option Bool
  /-- Holds `some addr` iff the vault-address panel is rendered. -/
  vaultPanel : Option Address
  /-- Holds `some disabled` iff the SETUP 3-OF-5 GUARDIANS button is rendered. -/
  guardianButton : Option Bool
  /-- The status paragraph text. -/
  statusText : String
  /-- The error paragraph, rendered iff `error` is truthy. -/
  errorText : Option String
deriving Repr, DecidableEq

inductive View where
  | configError
  | main (v : MainView)
deriving Repr, DecidableEq

/-- The component's render function. -/
def render (cfg : Config) (s : VaultState) : View :=
  if cfg.PIMLICO_API_KEY = "" then
    .configError
  else
    .main
      { createButton := match s.smartClient with
          | none => some s.loading
          | some _ => none
      , vaultPanel := match s.smartClient with
          | none => none
          | some c => some c.account.address
      , guardianButton := match s.smartClient with
          | none => none
          | some _ => some s.loading
      , statusText := s.status
      , errorText := match s.error with
          | none => none
          | some e => if e = "" then none else some e }

/-- Whether a view contains the CREATE SECURE VAULT button. -/
def View.hasCreateButton : View → Bool
  | .configError => false
  | .main v => v.createButton.isSome

/-- Whether a view contains the SETUP 3-OF-5 GUARDIANS button. -/
def View.hasGuardianButton : View → Bool
  | .configError => false
  | .main v => v.guardianButton.isSome

/-- The status text a view displays, if any. -/
def View.shownStatus : View → Option String
  | .configError => none
  | .main v => some v.statusText

/-- From `src/utils/wallet.ts`: the nibble characters produced by
`Math.floor(Math.random() * 16).toString(16)`. -/
def nibbleChar (n : Fin 16) : Char :=
  if n.val < 10 then Char.ofNat (48 + n.val) else Char.ofNat (87 + n.val)

/-- The private key built by `getBiometricOwner`: `'0x' +` 64 random
nibbles joined. -/
def buildPrivateKey (nibbles : Fin 64 → Fin 16) : String :=
  "0x" ++ String.mk ((List.finRange 64).map fun i => nibbleChar (nibbles i))

/-- What `getBiometricOwner` did: the artificial delay it awaited and
the settled outcome of its promise. -/
structure BiometricOutcome where
  delayMs : Nat
  result : Except JsError PrivateKeyAccount
deriving Repr

/-- Stub `getBiometricOwner` from `src/utils/wallet.ts`, parametrised by
viem's external `privateKeyToAccount` (an opaque total key-to-account
map) and by the 64 random nibbles drawn: awaits a 1500 ms timeout, builds
the key string, and resolves with the derived account — there is no
rejecting path in the source. -/
def getBiometricOwner (privateKeyToAccount : String → PrivateKeyAccount)
    (nibbles : Fin 64 → Fin 16) : BiometricOutcome :=
  { delayMs := 1500
  , result := .ok (privateKeyToAccount (buildPrivateKey nibbles)) }

/-! ### Concrete fixtures for witnesses and counterexamples -/

def cfg0 : Config :=
  { PIMLICO_API_KEY := "test-key"
  , RECOVERY_MODULE_ADDR := "0x00000000000000000000000000000000000000aa" }

def client0 : SmartClient :=
  { account := { address := "0xc0ffee0000000000000000000000000000000001" } }

/-- A post-vault-creation state. -/
def s0 : VaultState := { initialState with smartClient := some client0 }

def envOkSend : RecoveryEnv :=
  { sendTransactions := fun _ => .ok "0xabcdef1234567890" }

def envFailSend : RecoveryEnv :=
  { sendTransactions := fun _ => .error { message := "bundler rejected" } }

def owner0 : PrivateKeyAccount :=
  { address := "0x1111111111111111111111111111111111111111" }

def acct0 : SafeAccount :=
  { address := "0xabcdef0123456789abcdef0123456789abcdef01" }

def envOkCreate : CreateEnv :=
  { owner := .ok owner0
  , account := fun _ => .ok acct0
  , client := fun a => .ok { account := a } }

def envFailCreate : CreateEnv :=
  { owner := .error { message := "" }
  , account := fun _ => .ok acct0
  , client := fun a => .ok { account := a } }

/-! ### C1 -/

/-- With an existing client, `enableRecovery` performs exactly one
`sendTransactions` call, on the batch `recoveryBatch`. -/
theorem enableRecovery_submits (cfg : Config) (env : RecoveryEnv)
    (s : VaultState) (client : SmartClient) (guardians : List Address)
    (h : s.smartClient = some client) :
    (enableRecovery cfg env s guardians).2 = [recoveryBatch cfg client guardians] := by
  simp only [enableRecovery, h]
  cases env.sendTransactions (recoveryBatch cfg client guardians) <;> rfl

/-- C1: with an existing client, `enableRecovery` submits exactly one
batch of exactly two calls: (1) the encoding of `enableModule(address)`
applied to the recovery-module address, addressed to the smart
account's own address, and (2) the encoding of `setup(bytes)` whose
inner bytes encode `(address[] guardians, uint256 threshold, uint256
delay)` with threshold 3 and delay 172800, addressed to the
recovery-module address; and when submission resolves with a hash, the
final status is `Recovery Protocol Live: ` followed by the hash's
first 10 characters and `...`. -/
theorem C1_recovery_batch_and_status (cfg : Config) (env : RecoveryEnv)
    (s : VaultState) (client : SmartClient) (guardians : List Address)
    (h : s.smartClient = some client) :
    (enableRecovery cfg env s guardians).2 =
      [[ { toAddr := client.account.address
         , data := .fnEnableModule cfg.RECOVERY_MODULE_ADDR }
       , { toAddr := cfg.RECOVERY_MODULE_ADDR
         , data := .fnSetup (.abiTuple guardians 3 172800) } ]] ∧
    (∀ hash, env.sendTransactions (recoveryBatch cfg client guardians) = .ok hash →
      (finalState s (enableRecovery cfg env s guardians).1).status =
        "Recovery Protocol Live: " ++ hash.take 10 ++ "...") := by
  constructor
  · rw [enableRecovery_submits cfg env s client guardians h]
    simp [recoveryBatch, recoverySetupData]
  · intro hash hh
    simp only [enableRecovery, h]
    rw [hh]
    simp [finalState]

/-- C1 witness: a concrete client, config, environment and the sample
guardian list. -/
theorem C1_witness :
    (enableRecovery cfg0 envOkSend s0 sampleGuardians).2 =
      [[ { toAddr := "0xc0ffee0000000000000000000000000000000001"
         , data := .fnEnableModule "0x00000000000000000000000000000000000000aa" }
       , { toAddr := "0x00000000000000000000000000000000000000aa"
         , data := .fnSetup (.abiTuple sampleGuardians 3 172800) } ]] ∧
    (finalState s0 (enableRecovery cfg0 envOkSend s0 sampleGuardians).1).status =
      "Recovery Protocol Live: 0xabcdef12..." := by
  have h := C1_recovery_batch_and_status cfg0 envOkSend s0 client0 sampleGuardians rfl
  refine ⟨h.1, ?_⟩
  have h2 := h.2 "0xabcdef1234567890" rfl
  rw [h2]
  decide

/-! ### C3 -/

/-- The `(threshold, delay)` pair recorded inside the `setup(bytes)`
payload of a submitted batch list, when it has the expected shape. -/
def submittedThresholdDelay (batches : List (List Tx)) : Option (Nat × Nat) :=
  match batches with
  | [[_, tx2]] =>
    match tx2.data with
    | .fnSetup (.abiTuple _ t d) => some (t, d)
    | _ => none
  | _ => none

/-- C3: with an existing client, for a 5-element guardian list and any
permutation of it, `enableRecovery` encodes threshold 3 and delay
172800 seconds in the setup payload, for the list and the permutation
alike: the encoded pair does not depend on the order of the guardian
addresses. -/
theorem C3_threshold_delay_order_independent (cfg : Config) (env : RecoveryEnv)
    (s : VaultState) (client : SmartClient) (guardians guardians2 : List Address)
    (h : s.smartClient = some client) (_h5 : guardians.length = 5)
    (_hperm : guardians2.Perm guardians) :
    submittedThresholdDelay (enableRecovery cfg env s guardians).2 = some (3, 172800) ∧
    submittedThresholdDelay (enableRecovery cfg env s guardians2).2 = some (3, 172800) := by
  constructor
  · rw [enableRecovery_submits cfg env s client guardians h]
    rfl
  · rw [enableRecovery_submits cfg env s client guardians2 h]
    rfl

/-- C3 witness: the sample guardian list (5 elements) and its reversal. -/
theorem C3_witness :
    sampleGuardians.length = 5 ∧ sampleGuardians.reverse.Perm sampleGuardians ∧
    submittedThresholdDelay (enableRecovery cfg0 envOkSend s0 sampleGuardians).2 =
      some (3, 172800) ∧
    submittedThresholdDelay (enableRecovery cfg0 envOkSend s0 sampleGuardians.reverse).2 =
      some (3, 172800) := by
  have h := C3_threshold_delay_order_independent cfg0 envOkSend s0 client0
    sampleGuardians sampleGuardians.reverse rfl rfl (List.reverse_perm sampleGuardians)
  exact ⟨rfl, List.reverse_perm sampleGuardians, h.1, h.2⟩

/-! ### C2 -/

/-- C2 counterexample: invoking vault creation from the initial state
(status `Idle`) never makes the status the literal string
`Initializing...`: the in-flight status the code sets is
`Initializing Biometric Vault...`. -/
theorem C2_counterexample :
    ((createVault envOkCreate initialState).map VaultState.status =
      [ "Idle", "Idle"
      , "Initializing Biometric Vault...", "Initializing Biometric Vault..."
      , "Vault Active: 0xabcd...ef01", "Vault Active: 0xabcd...ef01" ]) ∧
    ("Initializing..." ∉ (createVault envOkCreate initialState).map VaultState.status) := by
  constructor
  · rfl
  · decide

/-- C2 (amended): invoking vault creation from a state with status
`Idle` moves the status to `Initializing Biometric Vault...` and then
either to `Vault Active: ` ++ the first 6 characters of the client's
account address ++ `...` ++ its last 4 characters (on success), or to
`Initialization Failed` with a non-empty error string set (on
failure). -/
theorem C2_createVault_status_transitions (env : CreateEnv) (s : VaultState)
    (hidle : s.status = "Idle") :
    (∀ client, runCreate env = .ok client →
      (createVault env s).map VaultState.status =
        [ "Idle", "Idle"
        , "Initializing Biometric Vault...", "Initializing Biometric Vault..."
        , "Vault Active: " ++ (client.account.address.take 6 ++ "..." ++
            client.account.address.takeRight 4)
        , "Vault Active: " ++ (client.account.address.take 6 ++ "..." ++
            client.account.address.takeRight 4) ]) ∧
    (∀ e, runCreate env = .error e →
      (createVault env s).map VaultState.status =
        [ "Idle", "Idle", "Initializing Biometric Vault..."
        , "Initialization Failed", "Initialization Failed", "Initialization Failed" ] ∧
      ∃ m, (finalState s (createVault env s)).error = some m ∧ m ≠ "") := by
  constructor
  · intro client hok
    simp only [createVault]
    rw [hok]
    simp [hidle, shortAddr]
  · intro e herr
    refine ⟨?_, errMsg e, ?_, ?_⟩
    · simp only [createVault]
      rw [herr]
      simp [hidle]
    · simp only [createVault]
      rw [herr]
      simp [finalState]
    · unfold errMsg
      split
      · decide
      · assumption

/-- C2 witness: one concrete successful run and one concrete failing
run from the initial state. -/
theorem C2_witness :
    ((createVault envOkCreate initialState).map VaultState.status =
      [ "Idle", "Idle"
      , "Initializing Biometric Vault...", "Initializing Biometric Vault..."
      , "Vault Active: 0xabcd...ef01", "Vault Active: 0xabcd...ef01" ]) ∧
    ((createVault envFailCreate initialState).map VaultState.status =
      [ "Idle", "Idle", "Initializing Biometric Vault..."
      , "Initialization Failed", "Initialization Failed", "Initialization Failed" ]) ∧
    (∃ m, (finalState initialState (createVault envFailCreate initialState)).error =
      some m ∧ m ≠ "") := by
  have hok := (C2_createVault_status_transitions envOkCreate initialState rfl).1
    { account := acct0 } rfl
  have herr := (C2_createVault_status_transitions envFailCreate initialState rfl).2
    { message := "" } rfl
  refine ⟨?_, herr.1, herr.2⟩
  rw [hok]
  decide

/-! ### C4 -/

/-- The map `errMsg` never produces the empty string: a falsy `err.message`
falls back to `'An unknown error occurred.'`. -/
theorem errMsg_ne_empty (e : JsError) : errMsg e ≠ "" := by
  unfold errMsg
  split
  · decide
  · assumption

/-- C4: failures are absorbed at the action boundary.  If any step of
vault creation throws and there is no vault yet, the final state still
has no client, status `Initialization Failed`, and a non-empty error
message; if recovery submission throws, the final state keeps the
existing client, status becomes `Recovery Setup Failed`, and the error
message is populated. -/
theorem C4_failure_leaves_state_intact :
    (∀ (env : CreateEnv) (s : VaultState) (e : JsError),
      runCreate env = .error e → s.smartClient = none →
      (finalState s (createVault env s)).smartClient = none ∧
      (finalState s (createVault env s)).status = "Initialization Failed" ∧
      ∃ m, (finalState s (createVault env s)).error = some m ∧ m ≠ "") ∧
    (∀ (cfg : Config) (env : RecoveryEnv) (s : VaultState) (client : SmartClient)
      (guardians : List Address) (e : JsError),
      s.smartClient = some client →
      env.sendTransactions (recoveryBatch cfg client guardians) = .error e →
      (finalState s (enableRecovery cfg env s guardians).1).smartClient = some client ∧
      (finalState s (enableRecovery cfg env s guardians).1).status = "Recovery Setup Failed" ∧
      ∃ m, (finalState s (enableRecovery cfg env s guardians).1).error = some m ∧ m ≠ "") := by
  constructor
  · intro env s e herr hnone
    simp only [createVault]
    rw [herr]
    simp [finalState, hnone]
    exact errMsg_ne_empty e
  · intro cfg env s client guardians e hclient herr
    simp only [enableRecovery, hclient]
    rw [herr]
    simp [finalState]
    exact errMsg_ne_empty e

/-- C4 witness: a concrete failing creation from the initial state and
a concrete failing submission from a post-creation state. -/
theorem C4_witness :
    ((finalState initialState (createVault envFailCreate initialState)).smartClient = none ∧
      (finalState initialState (createVault envFailCreate initialState)).status =
        "Initialization Failed" ∧
      ∃ m, (finalState initialState (createVault envFailCreate initialState)).error =
        some m ∧ m ≠ "") ∧
    ((finalState s0 (enableRecovery cfg0 envFailSend s0 sampleGuardians).1).smartClient =
        some client0 ∧
      (finalState s0 (enableRecovery cfg0 envFailSend s0 sampleGuardians).1).status =
        "Recovery Setup Failed" ∧
      ∃ m, (finalState s0 (enableRecovery cfg0 envFailSend s0 sampleGuardians).1).error =
        some m ∧ m ≠ "") :=
  ⟨C4_failure_leaves_state_intact.1 envFailCreate initialState { message := "" } rfl rfl,
   C4_failure_leaves_state_intact.2 cfg0 envFailSend s0 client0 sampleGuardians
     { message := "bundler rejected" } rfl rfl⟩

/-! ### C5 -/

/-- C5: the guardian-setup button is not rendered while the client
state is null (in either render branch), and `enableRecovery` invoked
with a null client performs no state mutation and submits nothing. -/
theorem C5_recovery_needs_client :
    (∀ (cfg : Config) (s : VaultState), s.smartClient = none →
      (render cfg s).hasGuardianButton = false) ∧
    (∀ (cfg : Config) (env : RecoveryEnv) (s : VaultState) (guardians : List Address),
      s.smartClient = none →
      enableRecovery cfg env s guardians = ([], [])) := by
  constructor
  · intro cfg s hnone
    unfold render
    by_cases hk : cfg.PIMLICO_API_KEY = ""
    · simp [hk, View.hasGuardianButton]
    · simp [hk, hnone, View.hasGuardianButton]
  · intro cfg env s guardians hnone
    simp [enableRecovery, hnone]

/-- C5 witness: the initial state (no client) under a configured key,
and a null-client invocation of `enableRecovery`. -/
theorem C5_witness :
    (render cfg0 initialState).hasGuardianButton = false ∧
    enableRecovery cfg0 envOkSend initialState sampleGuardians = ([], []) :=
  ⟨C5_recovery_needs_client.1 cfg0 initialState rfl,
   C5_recovery_needs_client.2 cfg0 envOkSend initialState sampleGuardians rfl⟩

/-! ### C6 -/

/-- C6: with no API key configured, the component renders only the
configuration-error view: no vault-creation button, no guardian-setup
button, and no status text. -/
theorem C6_missing_key_blocks_ui (cfg : Config) (s : VaultState)
    (hkey : cfg.PIMLICO_API_KEY = "") :
    render cfg s = .configError ∧
    (render cfg s).hasCreateButton = false ∧
    (render cfg s).hasGuardianButton = false ∧
    (render cfg s).shownStatus = none := by
  have hr : render cfg s = .configError := by
    unfold render
    simp [hkey]
  exact ⟨hr, by rw [hr]; rfl, by rw [hr]; rfl, by rw [hr]; rfl⟩

/-- C6 witness: an empty API key with a state that would otherwise
render every control. -/
theorem C6_witness :
    render { PIMLICO_API_KEY := "", RECOVERY_MODULE_ADDR := "0x00000000000000000000000000000000000000aa" } s0 = .configError ∧
    (render { PIMLICO_API_KEY := "", RECOVERY_MODULE_ADDR := "0x00000000000000000000000000000000000000aa" } s0).hasCreateButton = false ∧
    (render { PIMLICO_API_KEY := "", RECOVERY_MODULE_ADDR := "0x00000000000000000000000000000000000000aa" } s0).hasGuardianButton = false ∧
    (render { PIMLICO_API_KEY := "", RECOVERY_MODULE_ADDR := "0x00000000000000000000000000000000000000aa" } s0).shownStatus = none :=
  C6_missing_key_blocks_ui
    { PIMLICO_API_KEY := "", RECOVERY_MODULE_ADDR := "0x00000000000000000000000000000000000000aa" }
    s0 rfl

/-! ### C7 -/

/-- A mutation trace in which the loading flag is `true` at every
intermediate state and `false` exactly at the last one. -/
def LoadingProper : List VaultState → Prop
  | [] => False
  | [t] => t.loading = false
  | t :: u :: rest => t.loading = true ∧ LoadingProper (u :: rest)

/-- C7: for every invocation of `createVault`, and of `enableRecovery`
with an existing client, the loading flag is `true` at every state of
the trace except the last and `false` at the last: it is never left
stuck at `true` after the action terminates. -/
theorem C7_loading_flag_discipline :
    (∀ (env : CreateEnv) (s : VaultState), LoadingProper (createVault env s)) ∧
    (∀ (cfg : Config) (env : RecoveryEnv) (s : VaultState) (client : SmartClient)
      (guardians : List Address), s.smartClient = some client →
      LoadingProper (enableRecovery cfg env s guardians).1) := by
  constructor
  · intro env s
    unfold createVault
    cases runCreate env with
    | ok client => simp [LoadingProper]
    | error e => simp [LoadingProper]
  · intro cfg env s client guardians hclient
    simp only [enableRecovery, hclient]
    cases env.sendTransactions (recoveryBatch cfg client guardians) with
    | ok v => simp [LoadingProper]
    | error e => simp [LoadingProper]

/-- C7 witness: concrete successful creation and failing recovery runs. -/
theorem C7_witness :
    LoadingProper (createVault envOkCreate initialState) ∧
    LoadingProper (enableRecovery cfg0 envFailSend s0 sampleGuardians).1 :=
  ⟨C7_loading_flag_discipline.1 envOkCreate initialState,
   C7_loading_flag_discipline.2 cfg0 envFailSend s0 client0 sampleGuardians rfl⟩

/-! ### C8 -/

/-- C8: for every key-to-account map and every sequence of 64 random
key nibbles, `getBiometricOwner` awaits its artificial 1500 ms delay
and resolves successfully with the account derived from the generated
key — no rejecting outcome is reachable in the stub. -/
theorem C8_biometric_owner_always_succeeds (privateKeyToAccount : String → PrivateKeyAccount)
    (nibbles : Fin 64 → Fin 16) :
    (getBiometricOwner privateKeyToAccount nibbles).delayMs = 1500 ∧
    (getBiometricOwner privateKeyToAccount nibbles).result =
      .ok (privateKeyToAccount (buildPrivateKey nibbles)) :=
  ⟨rfl, rfl⟩

/-! ### C9 -/

/-- C9 counterexample: the hard-coded guardian list contains two
malformed addresses, not one, and no address of length 41: the two
malformed entries have 40 characters each. -/
theorem C9_counterexample :
    (sampleGuardians.filter (fun a => !isWellFormedAddress a)).length = 2 ∧
    (sampleGuardians.filter (fun a => a.length == 41)).length = 0 := by
  constructor
  · rfl
  · rfl

/-- C9 (amended): the hard-coded sample guardian list contains exactly
five addresses, of which exactly two are malformed with a length of 40
characters each; the other three are well-formed 42-character account
addresses. -/
theorem C9_sample_guardians_shape :
    sampleGuardians.length = 5 ∧
    (sampleGuardians.filter (fun a => !isWellFormedAddress a)).map String.length =
      [40, 40] ∧
    (sampleGuardians.filter (fun a => isWellFormedAddress a)).map String.length =
      [42, 42, 42] := by
  refine ⟨rfl, ?_, ?_⟩
  · rfl
  · rfl

/-! ### C10 -/

/-- C10: both handlers set the error state to `null` as their second
mutation, before any external call, and every in-flight or final state
from that point on carries either no error or the message produced by
the current invocation's failure — never a leftover message from an
earlier attempt. -/
theorem C10_error_cleared_at_start :
    (∀ (env : CreateEnv) (s : VaultState),
      ((createVault env s).get? 1).map VaultState.error = some none ∧
      ∀ t ∈ (createVault env s).drop 1,
        t.error = none ∨ ∃ e, runCreate env = .error e ∧ t.error = some (errMsg e)) ∧
    (∀ (cfg : Config) (env : RecoveryEnv) (s : VaultState) (client : SmartClient)
      (guardians : List Address), s.smartClient = some client →
      (((enableRecovery cfg env s guardians).1.get? 1).map VaultState.error = some none ∧
      ∀ t ∈ (enableRecovery cfg env s guardians).1.drop 1,
        t.error = none ∨
          ∃ e, env.sendTransactions (recoveryBatch cfg client guardians) = .error e ∧
            t.error = some (errMsg e))) := by
  constructor
  · intro env s
    simp only [createVault]
    cases h : runCreate env with
    | ok client =>
      refine ⟨rfl, ?_⟩
      intro t ht
      simp only [List.drop, List.mem_cons, List.not_mem_nil, or_false] at ht
      rcases ht with rfl | rfl | rfl | rfl | rfl <;> left <;> rfl
    | error e =>
      refine ⟨rfl, ?_⟩
      intro t ht
      simp only [List.drop, List.mem_cons, List.not_mem_nil, or_false] at ht
      rcases ht with rfl | rfl | rfl | rfl | rfl
      · left; rfl
      · left; rfl
      · left; rfl
      · right; exact ⟨e, rfl, rfl⟩
      · right; exact ⟨e, rfl, rfl⟩
  · intro cfg env s client guardians hclient
    simp only [enableRecovery, hclient]
    cases h : env.sendTransactions (recoveryBatch cfg client guardians) with
    | ok v =>
      refine ⟨rfl, ?_⟩
      intro t ht
      simp only [List.drop, List.mem_cons, List.not_mem_nil, or_false] at ht
      rcases ht with rfl | rfl | rfl | rfl <;> left <;> rfl
    | error e =>
      refine ⟨rfl, ?_⟩
      intro t ht
      simp only [List.drop, List.mem_cons, List.not_mem_nil, or_false] at ht
      rcases ht with rfl | rfl | rfl | rfl | rfl
      · left; rfl
      · left; rfl
      · left; rfl
      · right; exact ⟨e, rfl, rfl⟩
      · right; exact ⟨e, rfl, rfl⟩

/-- C10 witness: both handlers invoked from a state carrying a stale
error message clear it with their second mutation. -/
theorem C10_witness :
    (((createVault envFailCreate
        { s0 with error := some "stale failure" }).get? 1).map VaultState.error =
      some none) ∧
    (((enableRecovery cfg0 envFailSend
        { s0 with error := some "stale failure" } sampleGuardians).1.get? 1).map
          VaultState.error = some none) :=
  ⟨(C10_error_cleared_at_start.1 envFailCreate { s0 with error := some "stale failure" }).1,
   (C10_error_cleared_at_start.2 cfg0 envFailSend { s0 with error := some "stale failure" }
      client0 sampleGuardians rfl).1⟩

end ShadowVault
